import Mathlib

/-!
Host telemetry: system resource detector and processes scraper

Shallow embedding of

* `processor/resourcedetectionprocessor/internal/system/system.go`
  (`NewDetector`, `Detector.Detect`, `getHostname`, `getFQDN`, `hostnameSourcesMap`);
* `receiver/hostmetricsreceiver/internal/scraper/processesscraper/processes_scraper_test.go`
  (`TestScrape`, `validateFakeData`, the fake readers and processes).

Go values `(string, error)` are pairs `String × Option GoError` (`none` is the nil
error).  The provider is an interface, so it is a record of state-passing methods over
an arbitrary provider state `σ`; a method may answer differently on every call.
-/

/-! Go errors -/

/-- Go `error` values as built by `errors.New msg` and by
`fmt.Errorf (pre ++ "%w") inner`. -/
inductive GoError where
  | new (msg : String)
  | wrap (pre : String) (inner : GoError)
deriving DecidableEq, Repr

namespace GoError

/-- Go `err.Error()`: the message; for a wrapped error the format prefix followed by the
inner error's message. -/
def Error : GoError → String
  | .new msg => msg
  | .wrap pre inner => pre ++ inner.Error

/-- Go `errors.Unwrap err`. -/
def Unwrap : GoError → Option GoError
  | .new _ => none
  | .wrap _ inner => some inner

end GoError

/-! pdata: resources and attribute maps -/

namespace pdata

/-- Scalar attribute values. -/
inductive AttributeValue where
  | string (v : String)
  | int (v : Int)
  | bool (v : Bool)
deriving DecidableEq, Repr

/-- Go `pdata.AttributeMap`: key/value entries in insertion order. -/
structure AttributeMap where
  entries : List (String × AttributeValue)
deriving DecidableEq, Repr

namespace AttributeMap

/-- Go `am.Get(k)`: the value of the first entry with key `k`. -/
def Get (am : AttributeMap) (k : String) : Option AttributeValue :=
  (am.entries.find? (fun kv => kv.1 == k)).map (fun kv => kv.2)

/-- Go `am.Len()`. -/
def Len (am : AttributeMap) : Nat := am.entries.length

/-- Go `am.InsertString(k, v)`: adds the entry only when the key is not present yet. -/
def InsertString (am : AttributeMap) (k v : String) : AttributeMap :=
  match am.Get k with
  | some _ => am
  | none => ⟨am.entries ++ [(k, AttributeValue.string v)]⟩

end AttributeMap

/-- Go `pdata.Resource`. -/
structure Resource where
  attributes : AttributeMap
deriving DecidableEq, Repr

/-- Go `pdata.NewResource()`: a resource without attributes. -/
def NewResource : Resource := ⟨⟨[]⟩⟩

end pdata

/-! semconv v1.5.0 constants used by `Detect` -/

namespace conventions

/-- Go `conventions.AttributeHostName`. -/
def AttributeHostName : String := "host.name"

/-- Go `conventions.AttributeOSType`. -/
def AttributeOSType : String := "os.type"

/-- Go `conventions.SchemaURL` of semconv v1.5.0. -/
def SchemaURL : String := "https://opentelemetry.io/schemas/v1.5.0"

end conventions

/-! The system detector -/

namespace system

/-- Go `TypeStr`. -/
def TypeStr : String := "system"

/-- The three methods of the `systemMetadata` provider interface. -/
inductive Call where
  | OSType
  | Hostname
  | FQDN
deriving DecidableEq, Repr

/-- The `systemMetadata` interface: each method returns `(string, error)` and may
change the provider's own state. -/
structure systemMetadata (σ : Type) where
  OSType : σ → (String × Option GoError) × σ
  Hostname : σ → (String × Option GoError) × σ
  FQDN : σ → (String × Option GoError) × σ

/-- Go `*zap.Logger`, taken to be non-nil; what `Debug` is given is recorded in
`World.debugLog`. -/
structure Logger where
  name : String
deriving DecidableEq, Repr

/-- Everything `Detect` can touch outside its own locals: the provider's state, the
sequence of provider methods invoked so far (oldest first) and the messages passed to
`logger.Debug` (oldest first). -/
structure World (σ : Type) where
  prov : σ
  calls : List Call
  debugLog : List String

/-- Go `Detector`. -/
structure Detector (σ : Type) where
  provider : systemMetadata σ
  logger : Logger
  hostnameSources : List String

/-- Go `Config` of the system detector. -/
structure Config where
  HostnameSources : List String
deriving DecidableEq, Repr

/-- Go `component.ProcessorCreateSettings`, of which only `Logger` is read. -/
structure ProcessorCreateSettings where
  Logger : Logger
deriving DecidableEq, Repr

/-- Go `NewDetector`: `systemMetadataImpl` (not part of this file) is passed in as `impl`.
Returns the detector and the error, which is always nil. -/
def NewDetector {σ : Type} (impl : systemMetadata σ) (p : ProcessorCreateSettings)
    (dcfg : Config) : Detector σ × Option GoError :=
  let cfg : Config :=
    if dcfg.HostnameSources.length = 0 then { dcfg with HostnameSources := ["dns", "os"] }
    else dcfg
  ({ provider := impl, logger := p.Logger, hostnameSources := cfg.HostnameSources }, none)

/-- Go `getHostname`: the OS hostname, with the provider's error wrapped. -/
def getHostname {σ : Type} (d : Detector σ) (w : World σ) :
    (String × Option GoError) × World σ :=
  let r := d.provider.Hostname w.prov
  let w1 : World σ := { w with prov := r.2, calls := w.calls ++ [Call.Hostname] }
  match r.1.2 with
  | some err => (("", some (GoError.wrap "failed getting OS hostname: " err)), w1)
  | none => ((r.1.1, none), w1)

/-- Go `getFQDN`: the FQDN of the host, with the provider's error wrapped. -/
def getFQDN {σ : Type} (d : Detector σ) (w : World σ) :
    (String × Option GoError) × World σ :=
  let r := d.provider.FQDN w.prov
  let w1 : World σ := { w with prov := r.2, calls := w.calls ++ [Call.FQDN] }
  match r.1.2 with
  | some err => (("", some (GoError.wrap "failed getting FQDN: " err)), w1)
  | none => ((r.1.1, none), w1)

/-- Go `hostnameSourcesMap`: a lookup of a missing key gives the nil function (`none`). -/
def hostnameSourcesMap {σ : Type} (source : String) :
    Option (Detector σ → World σ → (String × Option GoError) × World σ) :=
  if source = "dns" then some getFQDN
  else if source = "os" then some getHostname
  else none

/-- What `Detect` returns: `(resource, schemaURL, err)`. -/
structure DetectReturn where
  resource : pdata.Resource
  schemaURL : String
  err : Option GoError
deriving DecidableEq, Repr

/-- The error of `Detect` when the loop over the sources runs to its end. -/
def errAllSourcesFailed : GoError :=
  GoError.new "all hostname sources are failed to get hostname"

/-- The `for _, source := range d.hostnameSources` loop of `Detect` together with the
final `return`.  The result `none` is the run-time panic of calling the nil function
that a missing map key gives. -/
def detectLoop {σ : Type} (d : Detector σ) (res : pdata.Resource) (osType : String) :
    List String → World σ → Option DetectReturn × World σ
  | [], w => (some ⟨res, "", some errAllSourcesFailed⟩, w)
  | source :: rest, w =>
    match hostnameSourcesMap source with
    | none => (none, w)
    | some getHostFromSource =>
      let r := getHostFromSource d w
      match r.1.2 with
      | none =>
        let attrs := res.attributes.InsertString conventions.AttributeHostName r.1.1
        let attrs := attrs.InsertString conventions.AttributeOSType osType
        (some ⟨⟨attrs⟩, conventions.SchemaURL, none⟩, r.2)
      | some err =>
        detectLoop d res osType rest { r.2 with debugLog := r.2.debugLog ++ [err.Error] }

/-- Go `Detector.Detect`. -/
def Detect {σ : Type} (d : Detector σ) (w : World σ) : Option DetectReturn × World σ :=
  let res := pdata.NewResource
  let r := d.provider.OSType w.prov
  let w1 : World σ := { w with prov := r.2, calls := w.calls ++ [Call.OSType] }
  match r.1.2 with
  | some err => (some ⟨res, "", some (GoError.wrap "failed getting OS type: " err)⟩, w1)
  | none => detectLoop d res r.1.1 d.hostnameSources w1

/-! Reference semantics used to state the properties -/

/-- The registry of hostname source names. -/
def registry : List String := ["dns", "os"]

/-- The provider method behind a registered source name. -/
def callOf (source : String) : Call :=
  if source = "dns" then Call.FQDN else Call.Hostname

/-- The answer of the provider method behind a source name in provider state `s`. -/
def askProvider {σ : Type} (p : systemMetadata σ) (source : String) (s : σ) :
    (String × Option GoError) × σ :=
  if source = "dns" then p.FQDN s else p.Hostname s

/-- The answers the provider gives when the sources are asked one after the other
from state `s`, without stopping at a success. -/
def attempts {σ : Type} (p : systemMetadata σ) : List String → σ → List (String × Option GoError)
  | [], _ => []
  | source :: rest, s =>
    (askProvider p source s).1 :: attempts p rest (askProvider p source s).2

/-- Whether an answer `(value, err)` carries the nil error. -/
def succeeded (r : String × Option GoError) : Bool := r.2.isNone

/-- The position, counted from 1, of the first answer without error, or the number
of answers when every one carries an error. -/
def invocations (rs : List (String × Option GoError)) : Nat :=
  min (rs.findIdx succeeded + 1) rs.length

/-- A provider over a counter state, used for concrete runs: `OSType` always answers
`linux`; `FQDN` fails; `Hostname` fails on its first call (state 0) and answers
`box` afterwards. -/
def flakyProvider : systemMetadata Nat where
  OSType := fun s => (("linux", none), s)
  Hostname := fun s =>
    if s = 0 then (("", some (GoError.new "no hostname yet")), s + 1) else (("box", none), s + 1)
  FQDN := fun s => (("", some (GoError.new "no dns")), s)

/-- A provider whose `OSType` fails. -/
def brokenProvider : systemMetadata Nat where
  OSType := fun s => (("", some (GoError.new "no uname")), s)
  Hostname := fun s => (("box", none), s)
  FQDN := fun s => (("box.example.org", none), s)

/-- The world before any call. -/
def World.init {σ : Type} (s : σ) : World σ := ⟨s, [], []⟩

/-- The format prefix a registered source puts before the provider's error. -/
def wrapPre (source : String) : String :=
  if source = "dns" then "failed getting FQDN: " else "failed getting OS hostname: "

/-- The answers of the hostname sources of `d`, asked in chain order from the provider
state that `OSType` leaves behind. -/
def sourceAnswers {σ : Type} (d : Detector σ) (w : World σ) : List (String × Option GoError) :=
  attempts d.provider d.hostnameSources (d.provider.OSType w.prov).2

/-- A detector over `flakyProvider` with the given chain. -/
def flakyDetector (chain : List String) : Detector Nat :=
  ⟨flakyProvider, ⟨"test"⟩, chain⟩

/-- A detector over `brokenProvider` with the given chain. -/
def brokenDetector (chain : List String) : Detector Nat :=
  ⟨brokenProvider, ⟨"test"⟩, chain⟩

end system

/-! pdata: metrics -/

namespace pdata

/-- Go `AttributeValue.StringVal()`: the string of a string value, empty otherwise. -/
def AttributeValue.StringVal : AttributeValue → String
  | .string v => v
  | _ => ""

/-- Go `pdata.NumberDataPoint` of an integer sum. -/
structure NumberDataPoint where
  Attributes : AttributeMap
  StartTimestamp : Nat
  Timestamp : Nat
  IntVal : Int
deriving DecidableEq, Repr

/-- Go `pdata.Metric` holding a sum: its name, monotonicity and `Sum().DataPoints()`. -/
structure Metric where
  Name : String
  IsMonotonic : Bool
  DataPoints : List NumberDataPoint
deriving DecidableEq, Repr

/-- Go `pdata.MetricSlice`. -/
abbrev MetricSlice := List Metric

end pdata

/-! scrapererror -/

namespace scrapererror

/-- Go `scrapererror.PartialScrapeError`: an error together with the number of metrics
that failed to be scraped. -/
structure PartialScrapeError where
  err : GoError
  Failed : Int
deriving DecidableEq, Repr

/-- The dynamic type of an `error` returned by `scrape`: an ordinary error or a
`PartialScrapeError`. -/
inductive ScrapeError where
  | plain (e : GoError)
  | ofPartialScrape (pe : PartialScrapeError)
deriving DecidableEq, Repr

/-- Go `err.Error()`. -/
def ScrapeError.Error : ScrapeError → String
  | .plain e => e.Error
  | .ofPartialScrape pe => pe.err.Error

/-- Go `scrapererror.IsPartialScrapeError(err)`. -/
def IsPartialScrapeError : Option ScrapeError → Bool
  | some (.ofPartialScrape _) => true
  | _ => false

end scrapererror

/-! The processes scraper and its test -/

namespace processesscraper

/-- Go `load.MiscStat` of gopsutil, with the fields the test sets. -/
structure MiscStat where
  ProcsTotal : Int
  ProcsCreated : Int
  ProcsRunning : Int
  ProcsBlocked : Int
deriving DecidableEq, Repr

/-- The `proc` interface: a process handle is what its `Status()` returns. -/
structure proc where
  Status : String × Option GoError
deriving DecidableEq, Repr

/-- Go `errProcess`: `Status` returns the empty string and the error `errProcess`. -/
def errProcess : proc := ⟨("", some (GoError.new "errProcess"))⟩

/-- Go `fakeProcess`: `Status` returns the string itself and no error. -/
def fakeProcess (f : String) : proc := ⟨(f, none)⟩

/-- Go `fakeData`. -/
def fakeData : MiscStat :=
  { ProcsCreated := 1, ProcsRunning := 2, ProcsBlocked := 3, ProcsTotal := 30 }

/-- Go `fakeProcessesData`. -/
def fakeProcessesData : List proc := [
  fakeProcess "W",
  fakeProcess "D", fakeProcess "D",
  fakeProcess "R", fakeProcess "R", fakeProcess "R",
  fakeProcess "S", fakeProcess "S", fakeProcess "S", fakeProcess "S",
  fakeProcess "T", fakeProcess "T", fakeProcess "T", fakeProcess "T", fakeProcess "T",
  fakeProcess "Z", fakeProcess "Z", fakeProcess "Z", fakeProcess "Z", fakeProcess "Z",
  fakeProcess "Z"]

/-- Go `expectProcessesCountMetric`, as a function of `runtime.GOOS`. -/
def expectProcessesCountMetric (GOOS : String) : Bool :=
  GOOS == "linux" || GOOS == "openbsd" || GOOS == "darwin" || GOOS == "freebsd" ||
    GOOS == "solaris"

/-- Go `expectProcessesCreatedMetric`, as a function of `runtime.GOOS`. -/
def expectProcessesCreatedMetric (GOOS : String) : Bool :=
  GOOS == "linux" || GOOS == "openbsd"

/-- Go `startTime = 100 * 1e9`. -/
def startTime : Nat := 100 * 1000000000

/-- Modelled from the spec: the generated `metadata` package of the processes scraper
is not among the sources.  The closed set of logical status labels of section 4.3. -/
inductive LabelStatus where
  | Running | Sleeping | Stopped | Zombies | Blocked | Paging | Idle | Wait | Locked | Unknown
deriving DecidableEq, Repr

/-- Modelled from the spec: the label values of `metadata.LabelStatus`, spelled as in
section 4.3. -/
def LabelStatus.value : LabelStatus → String
  | .Running => "running"
  | .Sleeping => "sleeping"
  | .Stopped => "stopped"
  | .Zombies => "zombies"
  | .Blocked => "blocked"
  | .Paging => "paging"
  | .Idle => "idle"
  | .Wait => "wait"
  | .Locked => "locked"
  | .Unknown => "unknown"

/-- Modelled from the spec: the fixed enumeration of section 4.3, in its order. -/
def LabelStatus.all : List LabelStatus :=
  [.Running, .Sleeping, .Stopped, .Zombies, .Blocked, .Paging, .Idle, .Wait, .Locked,
   .Unknown]

namespace metadata

/-- Modelled from the spec: `metadata.L.Status` (also `metadata.Labels.Status`), the
attribute key under which a data point carries its status label. -/
def L_Status : String := "status"

/-- Modelled from the spec: the identity of `metadata.Metrics.SystemProcessesCount`
(section 6). -/
def SystemProcessesCount_Name : String := "system.processes.count"

/-- Modelled from the spec: the identity of `metadata.Metrics.SystemProcessesCreated`
(section 6). -/
def SystemProcessesCreated_Name : String := "system.processes.created"

end metadata

/-- A Go `map[string]int64` as its list of entries, one per key. -/
abbrev GoMap := List (String × Int)

/-- Go `m[k]` read with the comma-ok form. -/
def GoMap.get (m : GoMap) (k : String) : Option Int :=
  (m.find? (fun kv => kv.1 == k)).map (fun kv => kv.2)

/-- Go `m[k] = v`: overwrites the entry of `k` or adds one. -/
def GoMap.set (m : GoMap) (k : String) (v : Int) : GoMap :=
  match m with
  | [] => [(k, v)]
  | kv :: rest => if kv.1 == k then (k, v) :: rest else kv :: GoMap.set rest k v

/-- Go `assert.Equal` on two maps: the same keys with the same values. -/
def GoMap.equal (a b : GoMap) : Bool :=
  a.all (fun kv => GoMap.get b kv.1 == some kv.2) &&
    b.all (fun kv => GoMap.get a kv.1 == some kv.2)

/-- Modelled from the spec: `internal.AssertDescriptorEqual` is not among the sources;
the descriptor of a metric is compared through the metric identity, its name. -/
def AssertDescriptorEqual (expectedName : String) (actual : pdata.Metric) : Bool :=
  actual.Name == expectedName

/-- Modelled from the spec: `internal.AssertSameTimeStampForAllMetrics` is not among the
sources; every data point of every metric carries the same observation timestamp
(section 8). -/
def AssertSameTimeStampForAllMetrics (metrics : pdata.MetricSlice) : Bool :=
  match metrics.flatMap (fun m => m.DataPoints) with
  | [] => true
  | p :: rest => rest.all (fun q => q.Timestamp == p.Timestamp)

/-- The loop of `validateFakeData` over the points of the count metric: every point
must carry the status attribute (`none` when one does not), and
`attrs[val.StringVal()] = point.IntVal()`. -/
def collectAttrs : List pdata.NumberDataPoint → GoMap → Option GoMap
  | [], attrs => some attrs
  | point :: rest, attrs =>
    match point.Attributes.Get metadata.L_Status with
    | none => none
    | some val => collectAttrs rest (GoMap.set attrs val.StringVal point.IntVal)

/-- The map `validateFakeData` expects, with `ls = metadata.LabelStatus`. -/
def expectedFakeAttrs : GoMap := [
  (LabelStatus.Blocked.value, 3),
  (LabelStatus.Paging.value, 1),
  (LabelStatus.Running.value, 2),
  (LabelStatus.Sleeping.value, 4),
  (LabelStatus.Stopped.value, 5),
  (LabelStatus.Unknown.value, 9),
  (LabelStatus.Zombies.value, 6)]

/-- The `expectProcessesCountMetric` block of `validateFakeData`. -/
def validateFakeCount (metrics : pdata.MetricSlice) : Bool :=
  match metrics[0]? with
  | none => false
  | some countMetric =>
    AssertDescriptorEqual metadata.SystemProcessesCount_Name countMetric &&
      (match collectAttrs countMetric.DataPoints [] with
        | none => false
        | some attrs => GoMap.equal attrs expectedFakeAttrs)

/-- The `expectProcessesCreatedMetric` block of `validateFakeData`. -/
def validateFakeCreated (metrics : pdata.MetricSlice) (metricIndex : Nat) : Bool :=
  match metrics[metricIndex]? with
  | none => false
  | some createdMetric =>
    AssertDescriptorEqual metadata.SystemProcessesCreated_Name createdMetric &&
      createdMetric.DataPoints.length == 1 &&
      (match createdMetric.DataPoints[0]? with
        | none => false
        | some point => point.Attributes.Len == 0)

/-- Go `validateFakeData`: `true` when every assertion holds (an index out of range fails
the test). -/
def validateFakeData (GOOS : String) (metrics : pdata.MetricSlice) : Bool :=
  let metricIndex := if expectProcessesCountMetric GOOS then 1 else 0
  (if expectProcessesCountMetric GOOS then validateFakeCount metrics else true) &&
    (if expectProcessesCreatedMetric GOOS then validateFakeCreated metrics metricIndex
      else true)

/-- The `testCase` struct of `TestScrape`; a reader mock is the value it returns, and
`none` stands for a nil field. -/
structure testCase where
  name : String
  getMiscStats : Option (MiscStat × Option GoError)
  getProcesses : Option (List proc × Option GoError)
  expectedErr : String
  validate : Option (String → pdata.MetricSlice → Bool)

/-- Test case `FakeData`. -/
def case_FakeData : testCase :=
  { name := "FakeData", getMiscStats := some (fakeData, none),
    getProcesses := some (fakeProcessesData, none), expectedErr := "",
    validate := some validateFakeData }

/-- Test case `ErrorFromMiscStat`. -/
def case_ErrorFromMiscStat : testCase :=
  { name := "ErrorFromMiscStat",
    getMiscStats := some (⟨0, 0, 0, 0⟩, some (GoError.new "err1")),
    getProcesses := none, expectedErr := "err1", validate := none }

/-- Test case `ErrorFromProcesses`. -/
def case_ErrorFromProcesses : testCase :=
  { name := "ErrorFromProcesses", getMiscStats := none,
    getProcesses := some ([], some (GoError.new "err2")), expectedErr := "err2",
    validate := none }

/-- Test case `ErrorFromProcessShouldBeIgnored`. -/
def case_ErrorFromProcessShouldBeIgnored : testCase :=
  { name := "ErrorFromProcessShouldBeIgnored", getMiscStats := none,
    getProcesses := some ([errProcess], none), expectedErr := "", validate := none }

/-- Go `expectedMetricCount` of `TestScrape`. -/
def expectedMetricCount (GOOS : String) : Nat :=
  (if expectProcessesCountMetric GOOS then 1 else 0) +
    (if expectProcessesCreatedMetric GOOS then 1 else 0)

/-- Go `assert.EqualError(err, msg)`: the error is not nil and its message is `msg`. -/
def EqualError (err : Option scrapererror.ScrapeError) (msg : String) : Bool :=
  match err with
  | none => false
  | some e => e.Error == msg

/-- The assertions `TestScrape` makes on what `scraper.scrape` returned for one test
case: `true` when all of them hold. -/
def TestScrape_asserts (GOOS : String) (test : testCase) (metrics : pdata.MetricSlice)
    (err : Option scrapererror.ScrapeError) : Bool :=
  if (expectProcessesCountMetric GOOS || expectProcessesCreatedMetric GOOS) &&
      test.expectedErr != "" then
    EqualError err test.expectedErr &&
      scrapererror.IsPartialScrapeError err &&
      (match err with
        | some (.ofPartialScrape pe) => pe.Failed == (expectedMetricCount GOOS : Int)
        | _ => true)
  else
    (if test.expectedErr == "" then err.isNone else true) &&
      metrics.length == expectedMetricCount GOOS &&
      (match test.validate with
        | some validate => validate GOOS metrics
        | none => true) &&
      AssertSameTimeStampForAllMetrics metrics

/-- Modelled from the spec: `processes_scraper.go` is not among the sources.  The
scraper holds the two replaceable readers (a reader is the value it returns), the
start time captured by `start`, the capability descriptor of the platform (which of
the two metrics its facilities provide, section 9) and the state classifier. -/
structure scraper where
  getMiscStats : MiscStat × Option GoError
  getProcesses : List proc × Option GoError
  startTime : Nat
  countAvailable : Bool
  createdAvailable : Bool
  toAttributeStatus : String → LabelStatus

/-- Modelled from the spec: the state classifier, with the raw codes of the example of
section 8; any other raw code resolves to `unknown` (section 4.3). -/
def toAttributeStatus (status : String) : LabelStatus :=
  if status = "R" then .Running
  else if status = "S" then .Sleeping
  else if status = "T" then .Stopped
  else if status = "Z" then .Zombies
  else if status = "D" then .Blocked
  else if status = "W" then .Paging
  else .Unknown

/-- Modelled from the spec: `newProcessesScraper` followed by `start` on platform
`GOOS`, wiring the readers to the OS-backed ones (`live`); a platform provides a metric
exactly when `TestScrape` expects it there. -/
def newProcessesScraper (GOOS : String) (liveMiscStats : MiscStat × Option GoError)
    (liveProcesses : List proc × Option GoError) (started : Nat) : scraper :=
  { getMiscStats := liveMiscStats, getProcesses := liveProcesses, startTime := started,
    countAvailable := expectProcessesCountMetric GOOS,
    createdAvailable := expectProcessesCreatedMetric GOOS,
    toAttributeStatus := toAttributeStatus }

/-- Modelled from the spec: step 3 of `scrape` (section 4.2).  A process whose status
read fails is dropped; every other one increments the bucket of its label. -/
def tally (classify : String → LabelStatus) :
    List proc → (LabelStatus → Nat) → (LabelStatus → Nat)
  | [], buckets => buckets
  | process :: rest, buckets =>
    match process.Status.2 with
    | some _ => tally classify rest buckets
    | none =>
      tally classify rest
        (fun l => if l = classify process.Status.1 then buckets l + 1 else buckets l)

/-- Modelled from the spec: step 4(a), one data point per non-empty bucket, valued
with the bucket's count and tagged with the bucket's label. -/
def countPoints (buckets : LabelStatus → Nat) (start now : Nat) :
    List pdata.NumberDataPoint :=
  (LabelStatus.all.filter (fun l => decide (0 < buckets l))).map (fun l =>
    { Attributes := (pdata.AttributeMap.mk []).InsertString metadata.L_Status l.value,
      StartTimestamp := start, Timestamp := now, IntVal := (buckets l : Int) })

/-- Modelled from the spec: the aggregated error value; a single failure keeps its
error, several are listed in one message. -/
def combineErrors : List GoError → Option GoError
  | [] => none
  | [e] => some e
  | es => some (GoError.new (String.intercalate "; " (es.map GoError.Error)))

/-- Modelled from the spec: `scrape` of section 4.2.  Each available facility is read;
a failed reader contributes 1 to the failure count and its metric is omitted; the
count-by-status metric comes first, the created metric second; the error is nil when
no reader failed and a `PartialScrapeError` counting the failed readers otherwise. -/
def scrape (s : scraper) (now : Nat) : pdata.MetricSlice × Option scrapererror.ScrapeError :=
  let miscFailures : List GoError :=
    if s.createdAvailable then s.getMiscStats.2.toList else []
  let processesFailures : List GoError :=
    if s.countAvailable then s.getProcesses.2.toList else []
  let countMetric : List pdata.Metric :=
    if s.countAvailable && s.getProcesses.2.isNone then
      [{ Name := metadata.SystemProcessesCount_Name, IsMonotonic := false,
         DataPoints :=
           countPoints (tally s.toAttributeStatus s.getProcesses.1 (fun _ => 0))
             s.startTime now }]
    else []
  let createdMetric : List pdata.Metric :=
    if s.createdAvailable && s.getMiscStats.2.isNone then
      [{ Name := metadata.SystemProcessesCreated_Name, IsMonotonic := true,
         DataPoints := [{ Attributes := ⟨[]⟩, StartTimestamp := s.startTime,
                          Timestamp := now, IntVal := s.getMiscStats.1.ProcsCreated }] }]
    else []
  let failures := miscFailures ++ processesFailures
  (countMetric ++ createdMetric,
   (combineErrors failures).map (fun e =>
     scrapererror.ScrapeError.ofPartialScrape ⟨e, (failures.length : Int)⟩))

/-- The scraper one `t.Run` of `TestScrape` scrapes: created and started on `GOOS`, the
readers the test case mocks overridden, `startTime` set. -/
def testScraper (GOOS : String) (liveMiscStats : MiscStat × Option GoError)
    (liveProcesses : List proc × Option GoError) (test : testCase) : scraper :=
  let scraper := newProcessesScraper GOOS liveMiscStats liveProcesses 0
  let scraper :=
    match test.getMiscStats with
    | some getMiscStats => { scraper with getMiscStats := getMiscStats }
    | none => scraper
  let scraper :=
    match test.getProcesses with
    | some getProcesses => { scraper with getProcesses := getProcesses }
    | none => scraper
  { scraper with startTime := startTime }

/-- The body of one `t.Run` of `TestScrape`: `scrape` runs at time `now` on the scraper
of the test case and the assertions are made on what it returns. -/
def TestScrape (GOOS : String) (liveMiscStats : MiscStat × Option GoError)
    (liveProcesses : List proc × Option GoError) (now : Nat) (test : testCase) : Bool :=
  let r := scrape (testScraper GOOS liveMiscStats liveProcesses test) now
  TestScrape_asserts GOOS test r.1 r.2

/-- The scraper of a test case on `linux`, over live readers that succeed. -/
def linuxScraper (test : testCase) : scraper :=
  testScraper "linux" (fakeData, none) ([fakeProcess "R", fakeProcess "S"], none) test

/-- The label and value of every data point, in order. -/
def pointTable (points : List pdata.NumberDataPoint) : List (Option String × Int) :=
  points.map (fun p =>
    ((p.Attributes.Get metadata.L_Status).map pdata.AttributeValue.StringVal, p.IntVal))

/-- The number of readers of `s` whose call returns an error. -/
def failedReaders (s : scraper) : Nat :=
  (if s.getMiscStats.2.isSome then 1 else 0) + (if s.getProcesses.2.isSome then 1 else 0)

/-- The number of processes of the list that `classify` maps to the label `l`. -/
def classified (classify : String → LabelStatus) (processes : List proc) (l : LabelStatus) :
    Nat :=
  processes.countP (fun process => decide (classify process.Status.1 = l))

end processesscraper

/-! Lemmas on the detector -/


namespace system

theorem mem_registry_iff (source : String) :
    source ∈ registry ↔ source = "dns" ∨ source = "os" := by
  simp [registry]

theorem detectLoop_nil {σ : Type} (d : Detector σ) (res : pdata.Resource) (t : String)
    (w : World σ) :
    detectLoop d res t [] w = (some ⟨res, "", some errAllSourcesFailed⟩, w) := rfl

/-- One turn of the loop on a registered source whose provider method succeeds. -/
theorem detectLoop_cons_ok {σ : Type} (d : Detector σ) (res : pdata.Resource) (t : String)
    (source : String) (rest : List String) (w : World σ) (hs : source ∈ registry)
    (hok : (askProvider d.provider source w.prov).1.2 = none) :
    detectLoop d res t (source :: rest) w =
      (some ⟨⟨(res.attributes.InsertString conventions.AttributeHostName
                (askProvider d.provider source w.prov).1.1).InsertString
                conventions.AttributeOSType t⟩, conventions.SchemaURL, none⟩,
       ⟨(askProvider d.provider source w.prov).2, w.calls ++ [callOf source], w.debugLog⟩) := by
  rcases (mem_registry_iff source).1 hs with h | h
  · subst h
    simp only [askProvider, if_true] at hok
    simp [detectLoop, hostnameSourcesMap, getFQDN, askProvider, callOf, hok]
  · subst h
    have hne : ¬ ("os" = "dns") := by decide
    simp only [askProvider, hne, if_false] at hok
    simp [detectLoop, hostnameSourcesMap, getHostname, askProvider, callOf, hok]

/-- One turn of the loop on a registered source whose provider method fails. -/
theorem detectLoop_cons_fail {σ : Type} (d : Detector σ) (res : pdata.Resource) (t : String)
    (source : String) (rest : List String) (w : World σ) (hs : source ∈ registry)
    (e : GoError) (hfail : (askProvider d.provider source w.prov).1.2 = some e) :
    detectLoop d res t (source :: rest) w =
      detectLoop d res t rest
        ⟨(askProvider d.provider source w.prov).2, w.calls ++ [callOf source],
         w.debugLog ++ [wrapPre source ++ e.Error]⟩ := by
  rcases (mem_registry_iff source).1 hs with h | h
  · subst h
    simp only [askProvider, if_true] at hfail
    simp [detectLoop, hostnameSourcesMap, getFQDN, askProvider, callOf, hfail, wrapPre,
      GoError.Error]
  · subst h
    have hne : ¬ ("os" = "dns") := by decide
    simp only [askProvider, hne, if_false] at hfail
    simp [detectLoop, hostnameSourcesMap, getHostname, askProvider, callOf, hfail, wrapPre,
      GoError.Error]

/-- One turn of the loop on a name that is not registered: the nil function is called. -/
theorem detectLoop_cons_miss {σ : Type} (d : Detector σ) (res : pdata.Resource) (t : String)
    (source : String) (rest : List String) (w : World σ) (hs : source ∉ registry) :
    detectLoop d res t (source :: rest) w = (none, w) := by
  have h := (mem_registry_iff source).not.1 hs
  push_neg at h
  simp [detectLoop, hostnameSourcesMap, h.1, h.2]

theorem succeeded_iff (r : String × Option GoError) : succeeded r = true ↔ r.2 = none := by
  simp [succeeded]

theorem not_succeeded_iff (r : String × Option GoError) :
    succeeded r = false ↔ ∃ e, r.2 = some e := by
  rcases r with ⟨v, _ | e⟩ <;> simp [succeeded]

theorem invocations_cons_ok (r : String × Option GoError) (rs : List (String × Option GoError))
    (h : succeeded r = true) : invocations (r :: rs) = 1 := by
  simp [invocations, List.findIdx_cons, h]

theorem invocations_cons_fail (r : String × Option GoError)
    (rs : List (String × Option GoError)) (h : succeeded r = false) :
    invocations (r :: rs) = invocations rs + 1 := by
  simp only [invocations, List.findIdx_cons, h, cond_false, List.length_cons]
  omega

theorem attempts_length {σ : Type} (p : systemMetadata σ) (srcs : List String) (s : σ) :
    (attempts p srcs s).length = srcs.length := by
  induction srcs generalizing s with
  | nil => rfl
  | cons a rest ih => simp [attempts, ih]

/-- The provider methods the loop invokes are those of the first `invocations` sources,
in list order. -/
theorem detectLoop_calls {σ : Type} (d : Detector σ) (res : pdata.Resource) (t : String)
    (srcs : List String) (w : World σ) (hreg : ∀ s ∈ srcs, s ∈ registry) :
    (detectLoop d res t srcs w).2.calls =
      w.calls ++ (srcs.take (invocations (attempts d.provider srcs w.prov))).map callOf := by
  induction srcs generalizing w with
  | nil => simp [detectLoop_nil, attempts, invocations]
  | cons a rest ih =>
    have ha : a ∈ registry := hreg a (List.mem_cons_self _ _)
    have hrest : ∀ s ∈ rest, s ∈ registry := fun s hs => hreg s (List.mem_cons_of_mem _ hs)
    cases hr : (askProvider d.provider a w.prov).1.2 with
    | none =>
      rw [detectLoop_cons_ok d res t a rest w ha hr]
      have hsucc : succeeded (askProvider d.provider a w.prov).1 = true :=
        (succeeded_iff _).2 hr
      simp [attempts, invocations_cons_ok _ _ hsucc]
    | some e =>
      rw [detectLoop_cons_fail d res t a rest w ha e hr, ih _ hrest]
      have hfail : succeeded (askProvider d.provider a w.prov).1 = false :=
        (not_succeeded_iff _).2 ⟨e, hr⟩
      simp [attempts, invocations_cons_fail _ _ hfail]

/-- What the loop returns, read off the first answer without error. -/
theorem detectLoop_result {σ : Type} (d : Detector σ) (res : pdata.Resource) (t : String)
    (srcs : List String) (w : World σ) (hreg : ∀ s ∈ srcs, s ∈ registry) :
    (detectLoop d res t srcs w).1 =
      some (match (attempts d.provider srcs w.prov).find? succeeded with
        | some r =>
          ⟨⟨(res.attributes.InsertString conventions.AttributeHostName r.1).InsertString
              conventions.AttributeOSType t⟩, conventions.SchemaURL, none⟩
        | none => ⟨res, "", some errAllSourcesFailed⟩) := by
  induction srcs generalizing w with
  | nil => simp [detectLoop_nil, attempts]
  | cons a rest ih =>
    have ha : a ∈ registry := hreg a (List.mem_cons_self _ _)
    have hrest : ∀ s ∈ rest, s ∈ registry := fun s hs => hreg s (List.mem_cons_of_mem _ hs)
    cases hr : (askProvider d.provider a w.prov).1.2 with
    | none =>
      rw [detectLoop_cons_ok d res t a rest w ha hr]
      have hsucc : succeeded (askProvider d.provider a w.prov).1 = true :=
        (succeeded_iff _).2 hr
      simp [attempts, List.find?_cons, hsucc]
    | some e =>
      rw [detectLoop_cons_fail d res t a rest w ha e hr, ih _ hrest]
      have hfail : succeeded (askProvider d.provider a w.prov).1 = false :=
        (not_succeeded_iff _).2 ⟨e, hr⟩
      simp [attempts, List.find?_cons, hfail]

/-- The loop logs one message per failed source before the first success. -/
theorem detectLoop_log_length {σ : Type} (d : Detector σ) (res : pdata.Resource) (t : String)
    (srcs : List String) (w : World σ) (hreg : ∀ s ∈ srcs, s ∈ registry) :
    (detectLoop d res t srcs w).2.debugLog.length =
      w.debugLog.length + (attempts d.provider srcs w.prov).findIdx succeeded := by
  induction srcs generalizing w with
  | nil => simp [detectLoop_nil, attempts]
  | cons a rest ih =>
    have ha : a ∈ registry := hreg a (List.mem_cons_self _ _)
    have hrest : ∀ s ∈ rest, s ∈ registry := fun s hs => hreg s (List.mem_cons_of_mem _ hs)
    cases hr : (askProvider d.provider a w.prov).1.2 with
    | none =>
      rw [detectLoop_cons_ok d res t a rest w ha hr]
      have hsucc : succeeded (askProvider d.provider a w.prov).1 = true :=
        (succeeded_iff _).2 hr
      simp [attempts, List.findIdx_cons, hsucc]
    | some e =>
      rw [detectLoop_cons_fail d res t a rest w ha e hr, ih _ hrest]
      have hfail : succeeded (askProvider d.provider a w.prov).1 = false :=
        (not_succeeded_iff _).2 ⟨e, hr⟩
      simp [attempts, List.findIdx_cons, hfail]
      omega

/-- A run of failing registered sources is passed over: the loop continues on the
rest of the chain. -/
theorem detectLoop_skip_failed {σ : Type} (d : Detector σ) (res : pdata.Resource)
    (t : String) (pre rest : List String) (w : World σ) (hreg : ∀ s ∈ pre, s ∈ registry)
    (hfail : ∀ r ∈ attempts d.provider pre w.prov, succeeded r = false) :
    ∃ w1 : World σ, detectLoop d res t (pre ++ rest) w = detectLoop d res t rest w1 := by
  induction pre generalizing w with
  | nil => exact ⟨w, rfl⟩
  | cons a pre ih =>
    have ha : a ∈ registry := hreg a (List.mem_cons_self _ _)
    have hpre : ∀ s ∈ pre, s ∈ registry := fun s hs => hreg s (List.mem_cons_of_mem _ hs)
    have h1 : succeeded (askProvider d.provider a w.prov).1 = false :=
      hfail _ (by simp [attempts])
    obtain ⟨e, he⟩ := (not_succeeded_iff _).1 h1
    have h2 : ∀ r ∈ attempts d.provider pre (askProvider d.provider a w.prov).2,
        succeeded r = false := fun r hr => hfail r (by simp [attempts, hr])
    rw [List.cons_append, detectLoop_cons_fail d res t a (pre ++ rest) w ha e he]
    exact ih _ hpre h2

/-- An answer at index `k` that succeeded, every earlier one having failed, is the
first success. -/
theorem first_success (rs : List (String × Option GoError)) (k : Nat)
    (r : String × Option GoError) (hk : rs[k]? = some r) (hr : succeeded r = true)
    (hbefore : ∀ j r1, j < k → rs[j]? = some r1 → succeeded r1 = false) :
    rs.find? succeeded = some r ∧ rs.findIdx succeeded = k := by
  induction rs generalizing k with
  | nil => simp at hk
  | cons a rs ih =>
    cases k with
    | zero =>
      simp at hk
      subst hk
      simp [List.find?_cons, List.findIdx_cons, hr]
    | succ k =>
      have ha : succeeded a = false := hbefore 0 a (Nat.succ_pos k) (by simp)
      have hk1 : rs[k]? = some r := by simpa using hk
      have hb : ∀ j r1, j < k → rs[j]? = some r1 → succeeded r1 = false :=
        fun j r1 hj hj1 => hbefore (j + 1) r1 (Nat.succ_lt_succ hj) (by simpa using hj1)
      obtain ⟨h1, h2⟩ := ih k hk1 hb
      simp [List.find?_cons, List.findIdx_cons, ha, h1, h2]

/-- When every answer failed there is no first success. -/
theorem no_success (rs : List (String × Option GoError))
    (hall : ∀ r ∈ rs, succeeded r = false) :
    rs.find? succeeded = none ∧ rs.findIdx succeeded = rs.length := by
  induction rs with
  | nil => simp
  | cons a rs ih =>
    have ha : succeeded a = false := hall a (List.mem_cons_self _ _)
    obtain ⟨h1, h2⟩ := ih (fun r hr => hall r (List.mem_cons_of_mem _ hr))
    simp [List.find?_cons, List.findIdx_cons, ha, h1, h2]


theorem insert_host_os (h t : String) :
    (pdata.NewResource.attributes.InsertString conventions.AttributeHostName h).InsertString
        conventions.AttributeOSType t =
      ⟨[("host.name", pdata.AttributeValue.string h), ("os.type", pdata.AttributeValue.string t)]⟩ := by
  have hne : ("host.name" == "os.type") = false := by decide
  simp [pdata.NewResource, pdata.AttributeMap.InsertString, pdata.AttributeMap.Get,
    conventions.AttributeHostName, conventions.AttributeOSType, hne]

theorem Detect_of_OSType_ok {σ : Type} (d : Detector σ) (w : World σ)
    (hos : (d.provider.OSType w.prov).1.2 = none) :
    Detect d w = detectLoop d pdata.NewResource (d.provider.OSType w.prov).1.1
      d.hostnameSources ⟨(d.provider.OSType w.prov).2, w.calls ++ [Call.OSType], w.debugLog⟩ := by
  simp [Detect, hos]

/-- C1: with every source name in the registry and `OSType` succeeding, `Detect` invokes
the provider methods of the sources in chain order and stops at the first success: the
calls it adds are `OSType` followed by the methods of the first `n` sources, where `n`
is the position (from 1) of the first source that answers without error, or the chain
length when all fail; so the number of source invocations is `n`. -/
theorem C1_sources_in_order_until_first_success {σ : Type} (d : Detector σ) (w : World σ)
    (hreg : ∀ s ∈ d.hostnameSources, s ∈ registry)
    (hos : (d.provider.OSType w.prov).1.2 = none) :
    (Detect d w).2.calls =
        w.calls ++ Call.OSType ::
          (d.hostnameSources.take (invocations (sourceAnswers d w))).map callOf
    ∧ (Detect d w).2.calls.length = w.calls.length + 1 + invocations (sourceAnswers d w)
    ∧ (∀ k r, (sourceAnswers d w)[k]? = some r → succeeded r = true →
        (∀ j r1, j < k → (sourceAnswers d w)[j]? = some r1 → succeeded r1 = false) →
        invocations (sourceAnswers d w) = k + 1)
    ∧ ((∀ r ∈ sourceAnswers d w, succeeded r = false) →
        invocations (sourceAnswers d w) = d.hostnameSources.length) := by
  have hcalls : (Detect d w).2.calls =
      w.calls ++ Call.OSType ::
        (d.hostnameSources.take (invocations (sourceAnswers d w))).map callOf := by
    rw [Detect_of_OSType_ok d w hos, detectLoop_calls _ _ _ _ _ hreg]
    simp [sourceAnswers]
  have hlen : (sourceAnswers d w).length = d.hostnameSources.length := by
    simp [sourceAnswers, attempts_length]
  have hle : invocations (sourceAnswers d w) ≤ d.hostnameSources.length := by
    rw [← hlen]
    exact Nat.min_le_right _ _
  refine ⟨hcalls, ?_, ?_, ?_⟩
  · rw [hcalls]
    simp [Nat.min_eq_left hle]
    omega
  · intro k r hk hr hbefore
    have hidx := (first_success _ k r hk hr hbefore).2
    have hklt : k < (sourceAnswers d w).length := by
      rcases Nat.lt_or_ge k (sourceAnswers d w).length with h | h
      · exact h
      · rw [List.getElem?_eq_none h] at hk
        exact absurd hk (by simp)
    simp only [invocations, hidx]
    omega
  · intro hall
    have hidx := (no_success _ hall).2
    simp only [invocations, hidx, hlen]
    omega

/-- Concrete run for C1: chain `dns, os, os, dns` over a provider whose `FQDN` fails and
whose `Hostname` succeeds on its second call. -/
theorem C1_sources_in_order_until_first_success_witness :
    (∀ s ∈ (flakyDetector ["dns", "os", "os", "dns"]).hostnameSources, s ∈ registry)
    ∧ (Detect (flakyDetector ["dns", "os", "os", "dns"]) (World.init 0)).2.calls =
        [Call.OSType, Call.FQDN, Call.Hostname, Call.Hostname]
    ∧ invocations (sourceAnswers (flakyDetector ["dns", "os", "os", "dns"]) (World.init 0)) = 3 :=
  ⟨by decide,
   (C1_sources_in_order_until_first_success (flakyDetector ["dns", "os", "os", "dns"])
      (World.init 0) (by decide) rfl).1.trans (by decide),
   by decide⟩

/-- C2: when the provider's `OSType` returns an error `e`, `Detect` returns a resource
without attributes, the empty schema URL and the error wrapping `e` whose message is
`failed getting OS type: ` followed by `e`'s message; the only provider method invoked
is `OSType`, whatever the chain holds. -/
theorem C2_OSType_failure_short_circuits {σ : Type} (d : Detector σ) (w : World σ)
    (e : GoError) (hos : (d.provider.OSType w.prov).1.2 = some e) :
    (Detect d w).1 =
        some ⟨pdata.NewResource, "", some (GoError.wrap "failed getting OS type: " e)⟩
    ∧ pdata.NewResource.attributes.Len = 0
    ∧ (GoError.wrap "failed getting OS type: " e).Error = "failed getting OS type: " ++ e.Error
    ∧ (GoError.wrap "failed getting OS type: " e).Unwrap = some e
    ∧ (Detect d w).2.calls = w.calls ++ [Call.OSType]
    ∧ Call.FQDN ∉ (Detect d w).2.calls.drop w.calls.length
    ∧ Call.Hostname ∉ (Detect d w).2.calls.drop w.calls.length := by
  have hcalls : (Detect d w).2.calls = w.calls ++ [Call.OSType] := by simp [Detect, hos]
  refine ⟨by simp [Detect, hos], rfl, rfl, rfl, hcalls, ?_, ?_⟩ <;>
    simp [hcalls]

/-- Concrete run for C2: a provider whose `OSType` fails, with a chain that even holds
an unregistered name. -/
theorem C2_OSType_failure_short_circuits_witness :
    (brokenProvider.OSType 0).1.2 = some (GoError.new "no uname")
    ∧ (Detect (brokenDetector ["dns", "bogus", "os"]) (World.init 0)).1 =
        some ⟨pdata.NewResource, "",
          some (GoError.wrap "failed getting OS type: " (GoError.new "no uname"))⟩
    ∧ (Detect (brokenDetector ["dns", "bogus", "os"]) (World.init 0)).2.calls = [Call.OSType] :=
  ⟨rfl,
   (C2_OSType_failure_short_circuits (brokenDetector ["dns", "bogus", "os"]) (World.init 0)
      (GoError.new "no uname") rfl).1,
   by decide⟩


theorem C2_aux {σ : Type} (d : Detector σ) (w : World σ)
    (e : GoError) (hos : (d.provider.OSType w.prov).1.2 = some e) :
    (Detect d w).1 =
        some ⟨pdata.NewResource, "", some (GoError.wrap "failed getting OS type: " e)⟩ := by
  simp [Detect, hos]

/-- C3: with every source name in the registry, `OSType` answering `t`, and the first
source that succeeds (at index `k`, all earlier ones having failed) answering `h`,
`Detect` returns the nil error, `conventions.SchemaURL` and a resource whose attributes
are exactly `host.name = h` and `os.type = t`; the `k` earlier failures are only
logged. -/
theorem C3_success_at_first_working_source {σ : Type} (d : Detector σ) (w : World σ)
    (t h : String) (k : Nat)
    (hreg : ∀ s ∈ d.hostnameSources, s ∈ registry)
    (hos : (d.provider.OSType w.prov).1 = (t, none))
    (hk : (sourceAnswers d w)[k]? = some (h, none))
    (hbefore : ∀ j r1, j < k → (sourceAnswers d w)[j]? = some r1 → succeeded r1 = false) :
    (Detect d w).1 =
        some ⟨⟨⟨[("host.name", pdata.AttributeValue.string h),
                 ("os.type", pdata.AttributeValue.string t)]⟩⟩,
              conventions.SchemaURL, none⟩
    ∧ (Detect d w).2.debugLog.length = w.debugLog.length + k := by
  have hos2 : (d.provider.OSType w.prov).1.2 = none := by rw [hos]
  have hos1 : (d.provider.OSType w.prov).1.1 = t := by rw [hos]
  obtain ⟨hfind, hidx⟩ := first_success (sourceAnswers d w) k (h, none) hk rfl hbefore
  unfold sourceAnswers at hfind hidx
  constructor
  · rw [Detect_of_OSType_ok d w hos2, detectLoop_result _ _ _ _ _ hreg]
    simp only [hfind, hos1, insert_host_os]
  · rw [Detect_of_OSType_ok d w hos2, detectLoop_log_length _ _ _ _ _ hreg]
    simp only [hidx]

/-- Concrete run for C3: `FQDN` fails, `Hostname` fails once and then answers `box`. -/
theorem C3_success_at_first_working_source_witness :
    (∀ s ∈ (flakyDetector ["dns", "os", "os", "dns"]).hostnameSources, s ∈ registry)
    ∧ (sourceAnswers (flakyDetector ["dns", "os", "os", "dns"]) (World.init 0))[2]? =
        some ("box", none)
    ∧ (Detect (flakyDetector ["dns", "os", "os", "dns"]) (World.init 0)).1 =
        some ⟨⟨⟨[("host.name", pdata.AttributeValue.string "box"),
                 ("os.type", pdata.AttributeValue.string "linux")]⟩⟩,
              conventions.SchemaURL, none⟩ :=
  ⟨by decide, by decide,
   (C3_success_at_first_working_source (flakyDetector ["dns", "os", "os", "dns"])
      (World.init 0) "linux" "box" 2 (by decide) rfl (by decide) (by
        intro j r1 hj
        interval_cases j <;> simp [sourceAnswers, attempts, askProvider, flakyDetector,
          flakyProvider, World.init] <;> rintro rfl <;> rfl)).1⟩

/-- C4: with every source name in the registry, `OSType` succeeding and every source
failing, `Detect` returns a resource without attributes (no `os.type` either), the
empty schema URL and the error `all hostname sources are failed to get hostname`,
which is an error no source function ever returns. -/
theorem C4_all_sources_failed {σ : Type} (d : Detector σ) (w : World σ)
    (hreg : ∀ s ∈ d.hostnameSources, s ∈ registry)
    (hos : (d.provider.OSType w.prov).1.2 = none)
    (hall : ∀ r ∈ sourceAnswers d w, succeeded r = false) :
    (Detect d w).1 = some ⟨pdata.NewResource, "", some errAllSourcesFailed⟩
    ∧ pdata.NewResource.attributes.Len = 0
    ∧ pdata.NewResource.attributes.Get conventions.AttributeOSType = none
    ∧ errAllSourcesFailed.Error = "all hostname sources are failed to get hostname"
    ∧ (∀ (d1 : Detector σ) (w1 : World σ),
        (getFQDN d1 w1).1.2 ≠ some errAllSourcesFailed
        ∧ (getHostname d1 w1).1.2 ≠ some errAllSourcesFailed) := by
  refine ⟨?_, rfl, rfl, rfl, ?_⟩
  · have hfind := (no_success _ hall).1
    unfold sourceAnswers at hfind
    rw [Detect_of_OSType_ok d w hos, detectLoop_result _ _ _ _ _ hreg]
    simp only [hfind]
  · intro d1 w1
    constructor
    · cases hr : (d1.provider.FQDN w1.prov).1.2 <;> simp [getFQDN, hr, errAllSourcesFailed]
    · cases hr : (d1.provider.Hostname w1.prov).1.2 <;>
        simp [getHostname, hr, errAllSourcesFailed]

/-- Concrete run for C4: the chain `dns, os` over a provider whose `FQDN` fails and
whose first `Hostname` call fails. -/
theorem C4_all_sources_failed_witness :
    (∀ s ∈ (flakyDetector ["dns", "os"]).hostnameSources, s ∈ registry)
    ∧ (∀ r ∈ sourceAnswers (flakyDetector ["dns", "os"]) (World.init 0), succeeded r = false)
    ∧ (Detect (flakyDetector ["dns", "os"]) (World.init 0)).1 =
        some ⟨pdata.NewResource, "", some errAllSourcesFailed⟩ :=
  ⟨by decide, by decide,
   (C4_all_sources_failed (flakyDetector ["dns", "os"]) (World.init 0) (by decide) rfl
      (by decide)).1⟩

/-- C5: with every source name in the registry, whatever the provider does, `Detect`
returns, and the returned resource has either no attribute or both `host.name` and
`os.type`; it has attributes exactly when the error is nil, and the error is nil
exactly when the schema URL is not empty. -/
theorem C5_atomic_attributes {σ : Type} (d : Detector σ) (w : World σ)
    (hreg : ∀ s ∈ d.hostnameSources, s ∈ registry) :
    ∃ ret : DetectReturn, (Detect d w).1 = some ret
      ∧ (ret.resource.attributes.Len = 0
          ∨ ((ret.resource.attributes.Get conventions.AttributeHostName).isSome = true
              ∧ (ret.resource.attributes.Get conventions.AttributeOSType).isSome = true))
      ∧ (0 < ret.resource.attributes.Len ↔ ret.err = none)
      ∧ (ret.err = none ↔ ret.schemaURL ≠ "") := by
  cases hos : (d.provider.OSType w.prov).1.2 with
  | some e =>
    refine ⟨_, (C2_aux d w e hos), ?_⟩
    simp [pdata.NewResource, pdata.AttributeMap.Len]
  | none =>
    rw [Detect_of_OSType_ok d w hos, detectLoop_result _ _ _ _ _ hreg]
    refine ⟨_, rfl, ?_⟩
    cases (attempts d.provider d.hostnameSources (d.provider.OSType w.prov).2).find? succeeded with
    | none => simp [pdata.NewResource, pdata.AttributeMap.Len]
    | some r =>
      simp only [insert_host_os]
      have hne : ("host.name" == "os.type") = false := by decide
      refine ⟨Or.inr ⟨?_, ?_⟩, ?_, ?_⟩
      · simp [pdata.AttributeMap.Get, conventions.AttributeHostName]
      · simp [pdata.AttributeMap.Get, conventions.AttributeOSType, hne]
      · simp [pdata.AttributeMap.Len]
      · simp [conventions.SchemaURL]

/-- Concrete run for C5: a success after two failures. -/
theorem C5_atomic_attributes_witness :
    (∀ s ∈ (flakyDetector ["dns", "os", "os"]).hostnameSources, s ∈ registry)
    ∧ ∃ ret : DetectReturn, (Detect (flakyDetector ["dns", "os", "os"]) (World.init 0)).1 = some ret
      ∧ (ret.resource.attributes.Len = 0
          ∨ ((ret.resource.attributes.Get conventions.AttributeHostName).isSome = true
              ∧ (ret.resource.attributes.Get conventions.AttributeOSType).isSome = true))
      ∧ (0 < ret.resource.attributes.Len ↔ ret.err = none)
      ∧ (ret.err = none ↔ ret.schemaURL ≠ "") :=
  ⟨by decide, C5_atomic_attributes (flakyDetector ["dns", "os", "os"]) (World.init 0) (by decide)⟩


theorem NewDetector_chain {σ : Type} (impl : systemMetadata σ) (p : ProcessorCreateSettings)
    (cfg : Config) :
    (NewDetector impl p cfg).1.hostnameSources =
      if cfg.HostnameSources = [] then ["dns", "os"] else cfg.HostnameSources := by
  cases h : cfg.HostnameSources <;> simp [NewDetector, h]

theorem NewDetector_provider {σ : Type} (impl : systemMetadata σ) (p : ProcessorCreateSettings)
    (cfg : Config) : (NewDetector impl p cfg).1.provider = impl := rfl

/-- C6: `NewDetector` returns the nil error and a detector whose chain is `dns, os`
when the configured list is empty and the configured list itself otherwise, so the
chain is never empty; with the default chain and `OSType` succeeding, `Detect` invokes
`FQDN` first and `Hostname` only when `FQDN` returned an error. -/
theorem C6_NewDetector_chain {σ : Type} (impl : systemMetadata σ)
    (p : ProcessorCreateSettings) (cfg : Config) :
    (NewDetector impl p cfg).2 = none
    ∧ (cfg.HostnameSources = [] → (NewDetector impl p cfg).1.hostnameSources = ["dns", "os"])
    ∧ (cfg.HostnameSources ≠ [] →
        (NewDetector impl p cfg).1.hostnameSources = cfg.HostnameSources)
    ∧ (NewDetector impl p cfg).1.hostnameSources ≠ []
    ∧ (cfg.HostnameSources = [] → ∀ w : World σ, (impl.OSType w.prov).1.2 = none →
        (Detect (NewDetector impl p cfg).1 w).2.calls =
          w.calls ++ [Call.OSType, Call.FQDN] ++
            (if (impl.FQDN (impl.OSType w.prov).2).1.2 = none then [] else [Call.Hostname])) := by
  have hchain := NewDetector_chain impl p cfg
  refine ⟨rfl, ?_, ?_, ?_, ?_⟩
  · intro h
    rw [hchain, if_pos h]
  · intro h
    rw [hchain, if_neg h]
  · rw [hchain]
    split
    · simp
    · assumption
  · intro h w hos
    have hreg : ∀ s ∈ (NewDetector impl p cfg).1.hostnameSources, s ∈ registry := by
      rw [hchain, if_pos h]
      decide
    rw [Detect_of_OSType_ok _ w hos, detectLoop_calls _ _ _ _ _ hreg, hchain, if_pos h]
    simp only [NewDetector_provider]
    cases hf : (impl.FQDN (impl.OSType w.prov).2).1.2 with
    | none =>
      have hsucc : succeeded (impl.FQDN (impl.OSType w.prov).2).1 = true :=
        (succeeded_iff _).2 hf
      simp [attempts, askProvider, invocations_cons_ok _ _ hsucc, callOf]
    | some e =>
      have hfail : succeeded (impl.FQDN (impl.OSType w.prov).2).1 = false :=
        (not_succeeded_iff _).2 ⟨e, hf⟩
      have hne : ¬ ("os" = "dns") := by decide
      have h2 : invocations [(impl.FQDN (impl.OSType w.prov).2).1,
          (impl.Hostname (impl.FQDN (impl.OSType w.prov).2).2).1] = 2 := by
        rw [invocations_cons_fail _ _ hfail]
        simp [invocations]
      simp [attempts, askProvider, h2, callOf, hne]

/-- Concrete run for C6: the empty configuration over a provider whose `FQDN` fails. -/
theorem C6_NewDetector_chain_witness :
    (NewDetector flakyProvider ⟨⟨"test"⟩⟩ ⟨[]⟩).1.hostnameSources = ["dns", "os"]
    ∧ (NewDetector flakyProvider ⟨⟨"test"⟩⟩ ⟨["os"]⟩).1.hostnameSources = ["os"]
    ∧ (Detect (NewDetector flakyProvider ⟨⟨"test"⟩⟩ ⟨[]⟩).1 (World.init 1)).2.calls =
        [Call.OSType, Call.FQDN, Call.Hostname] :=
  ⟨(C6_NewDetector_chain flakyProvider ⟨⟨"test"⟩⟩ ⟨[]⟩).2.1 rfl,
   (C6_NewDetector_chain flakyProvider ⟨⟨"test"⟩⟩ ⟨["os"]⟩).2.2.1 (by decide),
   ((C6_NewDetector_chain flakyProvider ⟨⟨"test"⟩⟩ ⟨[]⟩).2.2.2.2 rfl (World.init 1) rfl).trans
     (by decide)⟩

/-- C7 as stated fails: for the configured list `bogus`, a name outside the registry,
`NewDetector` returns the nil error and keeps the name, and `Detect` on that detector
looks the name up, misses and calls the nil function. -/
theorem C7_unknown_name_not_rejected :
    "bogus" ∉ registry
    ∧ (NewDetector flakyProvider ⟨⟨"test"⟩⟩ ⟨["bogus"]⟩).2 = none
    ∧ (NewDetector flakyProvider ⟨⟨"test"⟩⟩ ⟨["bogus"]⟩).1.hostnameSources = ["bogus"]
    ∧ (hostnameSourcesMap "bogus" : Option (Detector Nat → World Nat → _)).isNone = true
    ∧ (Detect (NewDetector flakyProvider ⟨⟨"test"⟩⟩ ⟨["bogus"]⟩).1 (World.init 0)).1 = none := by
  refine ⟨by decide, rfl, rfl, rfl, rfl⟩

/-- C7 amended: `NewDetector` validates nothing.  For every configured list it returns
the nil error, and every configured name, registered or not, stays in the chain; when
the chain is `pre ++ bad :: post` with `bad` outside the registry, `OSType` succeeds and
all sources of `pre` are registered and fail, `Detect` reaches the lookup of `bad`,
misses and panics on the nil function instead of returning. -/
theorem C7_NewDetector_never_rejects {σ : Type} (impl : systemMetadata σ)
    (p : ProcessorCreateSettings) (cfg : Config) :
    (NewDetector impl p cfg).2 = none
    ∧ (∀ name ∈ cfg.HostnameSources, name ∈ (NewDetector impl p cfg).1.hostnameSources)
    ∧ (∀ (pre post : List String) (bad : String) (w : World σ),
        cfg.HostnameSources = pre ++ bad :: post → bad ∉ registry →
        (∀ s ∈ pre, s ∈ registry) → (impl.OSType w.prov).1.2 = none →
        (∀ r ∈ attempts impl pre (impl.OSType w.prov).2, succeeded r = false) →
        (hostnameSourcesMap bad : Option (Detector σ → World σ → _)) = none
        ∧ (Detect (NewDetector impl p cfg).1 w).1 = none) := by
  have hchain := NewDetector_chain impl p cfg
  refine ⟨rfl, ?_, ?_⟩
  · intro name hname
    have hne : cfg.HostnameSources ≠ [] := List.ne_nil_of_mem hname
    rw [hchain, if_neg hne]
    exact hname
  · intro pre post bad w hcfg hbad hpre hos hfail
    have hne : cfg.HostnameSources ≠ [] := by simp [hcfg]
    have hmiss := (mem_registry_iff bad).not.1 hbad
    push_neg at hmiss
    refine ⟨by simp [hostnameSourcesMap, hmiss.1, hmiss.2], ?_⟩
    rw [Detect_of_OSType_ok _ w hos, hchain, if_neg hne, hcfg]
    obtain ⟨w1, hw1⟩ := detectLoop_skip_failed (NewDetector impl p cfg).1 pdata.NewResource
      (impl.OSType w.prov).1.1 pre (bad :: post)
      ⟨(impl.OSType w.prov).2, w.calls ++ [Call.OSType], w.debugLog⟩ hpre hfail
    simp only [NewDetector_provider] at hw1 ⊢
    rw [hw1, detectLoop_cons_miss _ _ _ _ _ _ hbad]

/-- Concrete run for the amended C7: the chain `dns, bogus, os`, where `FQDN` fails. -/
theorem C7_NewDetector_never_rejects_witness :
    "bogus" ∉ registry
    ∧ (NewDetector flakyProvider ⟨⟨"test"⟩⟩ ⟨["dns", "bogus", "os"]⟩).2 = none
    ∧ (Detect (NewDetector flakyProvider ⟨⟨"test"⟩⟩ ⟨["dns", "bogus", "os"]⟩).1
        (World.init 0)).1 = none :=
  ⟨by decide, rfl,
   ((C7_NewDetector_never_rejects flakyProvider ⟨⟨"test"⟩⟩ ⟨["dns", "bogus", "os"]⟩).2.2
      ["dns"] ["os"] "bogus" (World.init 0) rfl (by decide) (by decide) rfl (by decide)).2⟩

end system

/-! Lemmas on the scraper -/

namespace processesscraper

theorem tally_skip (classify : String → LabelStatus) (before after : List proc) (p : proc)
    (e : GoError) (hp : p.Status.2 = some e) (buckets : LabelStatus → Nat) :
    tally classify (before ++ p :: after) buckets = tally classify (before ++ after) buckets := by
  induction before generalizing buckets with
  | nil => simp [tally, hp]
  | cons q rest ih =>
    cases hq : q.Status.2 with
    | some e1 => simp [tally, hq, ih]
    | none => simp [tally, hq, ih]


/-- The spec-modelled `scrape` and the assertions of `TestScrape` disagree on `linux`:
with one failing reader `scrape` answers `Failed = 1` where the test asserts
`Failed == expectedMetricCount`, which is 2, and on the fake data `scrape` emits the
per-process counts where `validateFakeData` expects running 2, blocked 3 and
unknown 9. -/
theorem TestScrape_disagrees_with_modelled_scrape :
    TestScrape "linux" (fakeData, none) ([fakeProcess "R", fakeProcess "S"], none) 7
        case_ErrorFromMiscStat = false
    ∧ TestScrape "linux" (fakeData, none) ([fakeProcess "R", fakeProcess "S"], none) 7
        case_ErrorFromProcesses = false
    ∧ TestScrape "linux" (fakeData, none) ([fakeProcess "R", fakeProcess "S"], none) 7
        case_FakeData = false
    ∧ expectedMetricCount "linux" = 2
    ∧ GoMap.get expectedFakeAttrs "running" = some 2
    ∧ GoMap.get expectedFakeAttrs "blocked" = some 3
    ∧ GoMap.get expectedFakeAttrs "unknown" = some 9 := by
  refine ⟨by decide, by decide, by decide, by decide, by decide, by decide, by decide⟩

theorem LabelStatus.value_injective : Function.Injective LabelStatus.value := by
  intro a b h
  cases a <;> cases b <;> first | rfl | exact absurd h (by decide)

theorem LabelStatus.mem_all (l : LabelStatus) : l ∈ LabelStatus.all := by
  cases l <;> decide

theorem LabelStatus.nodup_all : LabelStatus.all.Nodup := by decide

/-- When every status read succeeds, step 3 adds to each bucket the number of
processes classified to its label. -/
theorem tally_eq (classify : String → LabelStatus) (processes : List proc)
    (hok : ∀ p ∈ processes, p.Status.2 = none) (buckets : LabelStatus → Nat)
    (l : LabelStatus) :
    tally classify processes buckets l = buckets l + classified classify processes l := by
  induction processes generalizing buckets with
  | nil => simp [tally, classified]
  | cons p rest ih =>
    have hp : p.Status.2 = none := hok p (List.mem_cons_self _ _)
    have hrest : ∀ q ∈ rest, q.Status.2 = none := fun q hq => hok q (List.mem_cons_of_mem _ hq)
    simp only [tally, hp]
    rw [ih hrest]
    have hcls : classified classify (p :: rest) l =
        classified classify rest l + (if classify p.Status.1 = l then 1 else 0) := by
      simp [classified, List.countP_cons]
    rw [hcls]
    by_cases h : l = classify p.Status.1
    · subst h
      simp
      omega
    · have h1 : ¬ classify p.Status.1 = l := fun e => h e.symm
      simp [h, h1]

theorem pointTable_countPoints (buckets : LabelStatus → Nat) (start now : Nat) :
    pointTable (countPoints buckets start now) =
      (LabelStatus.all.filter (fun l => decide (0 < buckets l))).map
        (fun l => (some l.value, (buckets l : Int))) := by
  simp [pointTable, countPoints, List.map_map, Function.comp_def,
    pdata.AttributeMap.InsertString, pdata.AttributeMap.Get, metadata.L_Status,
    pdata.AttributeValue.StringVal]

/-- C8: on a platform where both metrics are available, for every outcome of the two
readers, the spec-modelled `scrape` returns the count metric exactly when
`getProcesses` succeeded and the created metric exactly when `getMiscStats` succeeded
(one metric per reader that succeeded), returns an error exactly when a reader failed,
that error is a `PartialScrapeError` whose `Failed` is the number of readers that
failed, and a single failing reader gives its own error with `Failed = 1`. -/
theorem C8_one_failure_per_failed_reader (s : scraper) (now : Nat)
    (hcount : s.countAvailable = true) (hcreated : s.createdAvailable = true) :
    (scrape s now).1.map (fun m => m.Name) =
        (if s.getProcesses.2.isNone then ["system.processes.count"] else []) ++
          (if s.getMiscStats.2.isNone then ["system.processes.created"] else [])
    ∧ (scrape s now).1.length + failedReaders s = 2
    ∧ ((scrape s now).2.isSome = true ↔ 0 < failedReaders s)
    ∧ (∀ err, (scrape s now).2 = some err →
        ∃ pe : scrapererror.PartialScrapeError,
          err = .ofPartialScrape pe ∧ pe.Failed = (failedReaders s : Int))
    ∧ (∀ e, s.getMiscStats.2 = some e → s.getProcesses.2 = none →
        (scrape s now).2 = some (.ofPartialScrape ⟨e, 1⟩))
    ∧ (∀ e, s.getProcesses.2 = some e → s.getMiscStats.2 = none →
        (scrape s now).2 = some (.ofPartialScrape ⟨e, 1⟩)) := by
  cases hm : s.getMiscStats.2 <;> cases hp : s.getProcesses.2 <;>
    simp [scrape, failedReaders, hcount, hcreated, hm, hp, combineErrors,
      metadata.SystemProcessesCount_Name, metadata.SystemProcessesCreated_Name]

/-- Concrete use of C8: the scrapers of the cases `ErrorFromMiscStat` and
`ErrorFromProcesses` on `linux`; one reader fails, the metric of the other reader is
returned and `Failed` is 1. -/
theorem C8_one_failure_per_failed_reader_witness :
    (linuxScraper case_ErrorFromMiscStat).countAvailable = true
    ∧ (linuxScraper case_ErrorFromMiscStat).createdAvailable = true
    ∧ (scrape (linuxScraper case_ErrorFromMiscStat) 7).1.map (fun m => m.Name) =
        ["system.processes.count"]
    ∧ (scrape (linuxScraper case_ErrorFromMiscStat) 7).2 =
        some (.ofPartialScrape ⟨GoError.new "err1", 1⟩)
    ∧ (scrape (linuxScraper case_ErrorFromProcesses) 7).1.map (fun m => m.Name) =
        ["system.processes.created"] :=
  ⟨by decide, by decide,
   (C8_one_failure_per_failed_reader (linuxScraper case_ErrorFromMiscStat) 7 (by decide)
      (by decide)).1.trans (by decide),
   (C8_one_failure_per_failed_reader (linuxScraper case_ErrorFromMiscStat) 7 (by decide)
      (by decide)).2.2.2.2.1 (GoError.new "err1") (by decide) (by decide),
   (C8_one_failure_per_failed_reader (linuxScraper case_ErrorFromProcesses) 7 (by decide)
      (by decide)).1.trans (by decide)⟩

/-- C9: when the count metric is available, `getProcesses` succeeds and every `Status`
call succeeds, the count metric of the spec-modelled `scrape` comes first and its
points are, in the order of the label enumeration, one point for every label that at
least one process classifies to, tagged with the label and valued with the number of
processes classified to it: no label occurs twice, a label occurs exactly when a
process classifies to it, and its value is that number.  When the created metric is
available and `getMiscStats` succeeds, it comes next with exactly one data point, which
has no attributes. -/
theorem C9_one_point_per_represented_label (s : scraper) (now : Nat)
    (hcount : s.countAvailable = true) (hprocs : s.getProcesses.2 = none)
    (hstatus : ∀ p ∈ s.getProcesses.1, p.Status.2 = none) :
    ∃ countMetric : pdata.Metric,
      (scrape s now).1[0]? = some countMetric
      ∧ countMetric.Name = "system.processes.count"
      ∧ pointTable countMetric.DataPoints =
          (LabelStatus.all.filter (fun l =>
              decide (0 < classified s.toAttributeStatus s.getProcesses.1 l))).map
            (fun l => (some l.value, (classified s.toAttributeStatus s.getProcesses.1 l : Int)))
      ∧ ((pointTable countMetric.DataPoints).map Prod.fst).Nodup
      ∧ (∀ l : LabelStatus, some l.value ∈ (pointTable countMetric.DataPoints).map Prod.fst ↔
          0 < classified s.toAttributeStatus s.getProcesses.1 l)
      ∧ (∀ (l : LabelStatus) (v : Int), (some l.value, v) ∈ pointTable countMetric.DataPoints →
          v = (classified s.toAttributeStatus s.getProcesses.1 l : Int))
      ∧ (s.createdAvailable = true → s.getMiscStats.2 = none →
          ∃ (createdMetric : pdata.Metric) (point : pdata.NumberDataPoint),
            (scrape s now).1[1]? = some createdMetric
            ∧ createdMetric.Name = "system.processes.created"
            ∧ createdMetric.DataPoints = [point]
            ∧ point.Attributes.Len = 0) := by
  have hb : ∀ l, tally s.toAttributeStatus s.getProcesses.1 (fun _ => 0) l =
      classified s.toAttributeStatus s.getProcesses.1 l := by
    intro l
    rw [tally_eq _ _ hstatus]
    simp
  have hfun : tally s.toAttributeStatus s.getProcesses.1 (fun _ => 0) =
      classified s.toAttributeStatus s.getProcesses.1 := funext hb
  have htable : pointTable
      (countPoints (tally s.toAttributeStatus s.getProcesses.1 (fun _ => 0)) s.startTime now) =
      (LabelStatus.all.filter (fun l =>
          decide (0 < classified s.toAttributeStatus s.getProcesses.1 l))).map
        (fun l => (some l.value, (classified s.toAttributeStatus s.getProcesses.1 l : Int))) := by
    rw [pointTable_countPoints, hfun]
  have hinj : Function.Injective (fun l : LabelStatus => some l.value) :=
    fun a b h => LabelStatus.value_injective (Option.some.inj h)
  refine ⟨⟨metadata.SystemProcessesCount_Name, false,
    countPoints (tally s.toAttributeStatus s.getProcesses.1 (fun _ => 0)) s.startTime now⟩,
    ?_, rfl, htable, ?_, ?_, ?_, ?_⟩
  · simp [scrape, hcount, hprocs]
  · rw [htable, List.map_map]
    exact (LabelStatus.nodup_all.filter _).map hinj
  · intro l
    rw [htable, List.map_map]
    constructor
    · intro h
      obtain ⟨l1, hl1, heq⟩ := List.mem_map.1 h
      have : l1 = l := hinj heq
      subst this
      simpa using (List.mem_filter.1 hl1).2
    · intro h
      exact List.mem_map.2 ⟨l, List.mem_filter.2 ⟨LabelStatus.mem_all l, by simpa using h⟩, rfl⟩
  · intro l v h
    rw [htable] at h
    obtain ⟨l1, _, heq⟩ := List.mem_map.1 h
    have h1 : l1 = l := hinj (congrArg Prod.fst heq)
    subst h1
    exact (congrArg Prod.snd heq).symm
  · intro hcreated hmisc
    refine ⟨⟨metadata.SystemProcessesCreated_Name, true,
      [⟨⟨[]⟩, s.startTime, now, s.getMiscStats.1.ProcsCreated⟩]⟩, _, ?_, rfl, rfl, rfl⟩
    simp [scrape, hcount, hprocs, hcreated, hmisc]

/-- Concrete use of C9: the fake list of 1 W, 2 D, 3 R, 4 S, 5 T, 6 Z with the fake
counters on `linux`. -/
theorem C9_one_point_per_represented_label_witness :
    (linuxScraper case_FakeData).getProcesses = (fakeProcessesData, none)
    ∧ (linuxScraper case_FakeData).getMiscStats = (fakeData, none)
    ∧ (∀ p ∈ (linuxScraper case_FakeData).getProcesses.1, p.Status.2 = none)
    ∧ ∃ countMetric : pdata.Metric,
        (scrape (linuxScraper case_FakeData) 7).1[0]? = some countMetric
        ∧ pointTable countMetric.DataPoints =
            [(some "running", 3), (some "sleeping", 4), (some "stopped", 5),
             (some "zombies", 6), (some "blocked", 2), (some "paging", 1)] :=
  ⟨rfl, rfl, by decide,
   match C9_one_point_per_represented_label (linuxScraper case_FakeData) 7 (by decide) rfl
      (by decide) with
   | ⟨m, h0, _, ht, _⟩ => ⟨m, h0, ht.trans (by decide)⟩⟩

/-- C10: in the spec-modelled `scrape`, a process whose `Status` returns an error
increments no bucket and changes nothing in what `scrape` returns: metrics, error and
`Failed` are those of the list without that process; and when both readers succeed the
error is nil whatever the processes answer. -/
theorem C10_status_error_is_ignored (s : scraper) (now : Nat) (before after : List proc)
    (p : proc) (e : GoError) (hp : p.Status.2 = some e) :
    (∀ buckets : LabelStatus → Nat,
      tally s.toAttributeStatus (before ++ p :: after) buckets =
        tally s.toAttributeStatus (before ++ after) buckets)
    ∧ scrape { s with getProcesses := (before ++ p :: after, none) } now =
        scrape { s with getProcesses := (before ++ after, none) } now
    ∧ (s.getMiscStats.2 = none →
        (scrape { s with getProcesses := (before ++ p :: after, none) } now).2 = none
        ∧ (scrape { s with getProcesses := (before ++ p :: after, none) } now).1.length =
            (if s.countAvailable then 1 else 0) + (if s.createdAvailable then 1 else 0)) := by
  have htally := tally_skip s.toAttributeStatus before after p e hp
  refine ⟨htally, ?_, ?_⟩
  · simp only [scrape, htally]
  · intro hmisc
    cases hc : s.countAvailable <;> cases hd : s.createdAvailable <;>
      simp [scrape, hmisc, hc, hd, combineErrors]

/-- Concrete use of C10: the case `ErrorFromProcessShouldBeIgnored` on `linux`; the
list holding a single `errProcess` gives what the empty list gives, no error and two
metrics, and the assertions of `TestScrape` accept it. -/
theorem C10_status_error_is_ignored_witness :
    errProcess.Status.2 = some (GoError.new "errProcess")
    ∧ scrape (linuxScraper case_ErrorFromProcessShouldBeIgnored) 7 =
        scrape { linuxScraper case_ErrorFromProcessShouldBeIgnored with
                 getProcesses := ([], none) } 7
    ∧ (scrape (linuxScraper case_ErrorFromProcessShouldBeIgnored) 7).2 = none
    ∧ (scrape (linuxScraper case_ErrorFromProcessShouldBeIgnored) 7).1.length =
        expectedMetricCount "linux"
    ∧ TestScrape "linux" (fakeData, none) ([fakeProcess "R", fakeProcess "S"], none) 7
        case_ErrorFromProcessShouldBeIgnored = true :=
  ⟨rfl,
   (C10_status_error_is_ignored (linuxScraper case_ErrorFromProcessShouldBeIgnored) 7 [] []
      errProcess (GoError.new "errProcess") rfl).2.1,
   by decide, by decide, by decide⟩

end processesscraper
